import Mathlib

/-!
Verification development for the frame-resource ring and per-frame
constant-data synchronization engine of
`src/Assignment1/Assignment1/Week4-4-CylinderUsingFrameResources.cpp`.

The embedding translates the CPU-side state and the per-frame operations
(`ShapesApp::Update`, `ShapesApp::Draw`, `ShapesApp::UpdateObjectCBs`,
`ShapesApp::UpdateMainPassCB`, `ShapesApp::BuildConstantBufferViews`,
`ShapesApp::DrawRenderItems`, `ShapesApp::BuildRenderItems`) into pure
Lean functions.  Floating-point scalars (`float`) are modelled as exact
rationals; 4x4 float matrices (`XMFLOAT4X4`/`XMMATRIX`) are modelled as
`Matrix (Fin 4) (Fin 4) ℚ`.  The GPU fence (`mFence`) is external state:
each call of the frame step receives the completed value the CPU would
observe via `mFence->GetCompletedValue()`; the indefinite blocking wait
of `ShapesApp::Update` (lines 216-222) is modelled by the step returning
`none` whenever the observed completed value has not yet reached the
slot's recorded fence target (re-invoking with a larger completed value
models the wait finishing when the GPU signals).
-/

/-- Float scalars are modelled as exact rationals. -/
abbrev Scalar : Type := ℚ

/-- An `XMFLOAT4X4` / `XMMATRIX` 4x4 float matrix, modelled over ℚ. -/
abbrev Mat4 : Type := Matrix (Fin 4) (Fin 4) Scalar

/-- `const int gNumFrameResources = 3;` (source line 27): the ring depth. -/
def gNumFrameResources : Nat := 3

/-- The `GameTimer` values read by the update functions
(`gt.TotalTime()`, `gt.DeltaTime()`). -/
structure GameTimer where
  TotalTime : Scalar
  DeltaTime : Scalar

/-- Modelled from the spec: `ObjectConstants` lives in `FrameResource.h`,
which is not under `src/`; per the spec's Per-Object Data Table it holds one
world transform per render item (the source stores
`XMMatrixTranspose(world)` into its `World` field, line 378). -/
structure ObjectConstants where
  World : Mat4

/-- Modelled from the spec: `PassConstants` lives in `FrameResource.h`,
which is not under `src/`; its fields are exactly those written by
`ShapesApp::UpdateMainPassCB` (source lines 398-410): the six matrices,
eye position, render-target size and its reciprocal, near/far plane,
total and delta time. -/
structure PassConstants where
  View : Mat4
  InvView : Mat4
  Proj : Mat4
  InvProj : Mat4
  ViewProj : Mat4
  InvViewProj : Mat4
  EyePosW : Scalar × Scalar × Scalar
  RenderTargetSize : Scalar × Scalar
  InvRenderTargetSize : Scalar × Scalar
  NearZ : Scalar
  FarZ : Scalar
  TotalTime : Scalar
  DeltaTime : Scalar

/-- `struct RenderItem` (source lines 31-58).  `World` is the local-to-world
transform (`XMFLOAT4X4`, default `MathHelper::Identity4x4()`),
`NumFramesDirty` the staleness counter (`int`, default
`gNumFrameResources`), `ObjCBIndex` the stable index into the per-frame
object constant buffer (`UINT`).  The geometry-reference fields (`Geo`,
`PrimitiveType`, `IndexCount`, `StartIndexLocation`, `BaseVertexLocation`)
are omitted: they are opaque draw parameters never read or written by the
frame-resource logic under verification. -/
structure RenderItem where
  World : Mat4 := 1
  NumFramesDirty : Int := gNumFrameResources
  ObjCBIndex : Nat

/-- Modelled from the spec: `FrameResource` is declared in
`FrameResource.h`, which is not under `src/`.  Per the spec's Frame Slot it
bundles a command-recording allocator (modelled by the count of
`CmdListAlloc->Reset()` calls performed on it, source line 234), the
per-object upload buffer `ObjectCB`, the pass upload buffer `PassCB`
(both modelled as partial maps from buffer element index to contents),
and the slot's recorded fence target `Fence` (a `UINT64`, initially 0). -/
structure FrameResource where
  CmdListAllocResets : Nat
  ObjectCB : Nat → Option ObjectConstants
  PassCB : Nat → Option PassConstants
  Fence : Nat

/-- The members of `class ShapesApp` (source lines 94-131) that the
frame-resource engine reads or writes, together with `mCurrentFence`
(modelled from the spec: the monotonically increasing completion-counter
target owned by the `D3DApp` base class, not under `src/`).
`mOpaqueRitems` is not modelled separately: `BuildRenderItems` (lines
1278-1280) makes it an exact copy of `mAllRitems`.  The camera scalars
(`mTheta`, `mPhi`, `mRadius`) and `mIsWireframe` are omitted: they feed
only `UpdateCamera`/`OnKeyboardInput`, whose sine/cosine arithmetic is
outside the frame-resource logic; `mView`, `mProj`, `mEyePos` are kept as
state that the modelled frame step reads but leaves unchanged. -/
structure ShapesApp where
  mFrameResources : Fin gNumFrameResources → FrameResource
  mCurrFrameResourceIndex : Nat
  mCurrentFence : Nat
  mAllRitems : List RenderItem
  mMainPassCB : PassConstants
  mEyePos : Scalar × Scalar × Scalar
  mView : Mat4
  mProj : Mat4
  mClientWidth : Scalar
  mClientHeight : Scalar

/-- `XMMatrixTranspose`. -/
def xmMatrixTranspose (M : Mat4) : Mat4 := M.transpose

/-- `XMMatrixMultiply(A, B)` (row-vector convention: `A * B`). -/
def xmMatrixMultiply (A B : Mat4) : Mat4 := A * B

/-- `XMMatrixDeterminant`. -/
def xmMatrixDeterminant (M : Mat4) : Scalar := M.det

/-- `XMMatrixInverse(&XMMatrixDeterminant(M), M)`: the inverse computed
through the determinant and the adjugate (for a zero determinant the
rational `0⁻¹ = 0` convention yields the zero matrix, the degenerate case
the spec declares the caller must avoid). -/
def xmMatrixInverse (M : Mat4) : Mat4 := (xmMatrixDeterminant M)⁻¹ • M.adjugate

/-- `XMMatrixTranslation(x, y, z)` (row-major, translation in the fourth
row). -/
def xmMatrixTranslation (x y z : Scalar) : Mat4 :=
  !![1, 0, 0, 0; 0, 1, 0, 0; 0, 0, 1, 0; x, y, z, 1]

/-- `XMMatrixRotationY(angle)`, taken with the cosine and sine of the
angle as rational parameters (the source uses the angles `0`, with cosine
1 and sine 0, and `XM_PIDIV2`, with cosine 0 and sine 1 in the idealised
exact model of the float computation). -/
def xmMatrixRotationY (cosAngle sinAngle : Scalar) : Mat4 :=
  !![cosAngle, 0, -sinAngle, 0; 0, 1, 0, 0; sinAngle, 0, cosAngle, 0; 0, 0, 0, 1]

/-- `UploadBuffer::CopyData(elementIndex, data)`: overwrite one element of
an upload buffer. -/
def copyData {α : Type} (buf : Nat → Option α) (i : Nat) (v : α) : Nat → Option α :=
  fun j => if j = i then some v else buf j

/-- Reduce an index into the frame-resource ring: the source indexes
`mFrameResources[mCurrFrameResourceIndex]` where the index is always kept
in `[0, gNumFrameResources)` by the `% gNumFrameResources` in `Update`
(line 211); the total model reduces modulo the ring size. -/
def frIdx (n : Nat) : Fin gNumFrameResources :=
  ⟨n % gNumFrameResources, Nat.mod_lt n (by decide)⟩

/-- The frame resource currently selected (`mCurrFrameResource`,
line 212). -/
def ShapesApp.currFrameResource (s : ShapesApp) : FrameResource :=
  s.mFrameResources (frIdx s.mCurrFrameResourceIndex)

/-- Replace one slot of the frame-resource ring. -/
def setFrameResource (s : ShapesApp) (j : Fin gNumFrameResources) (fr : FrameResource) :
    ShapesApp :=
  { s with mFrameResources := fun k => if k = j then fr else s.mFrameResources k }

/-- The per-item effect of one `UpdateObjectCBs` pass on the staleness
counter: `e->NumFramesDirty--` exactly when `e->NumFramesDirty > 0`
(source lines 373-383). -/
def decDirty (e : RenderItem) : RenderItem :=
  if 0 < e.NumFramesDirty then { e with NumFramesDirty := e.NumFramesDirty - 1 } else e

/-- The loop body of `ShapesApp::UpdateObjectCBs` (source lines 369-385):
walk `mAllRitems`; for each item with `NumFramesDirty > 0` store the
transposed world matrix into the current object constant buffer at
`ObjCBIndex` via `CopyData` and decrement the counter; leave the other
items and their buffer entries untouched.  Returns the updated buffer and
the updated item list. -/
def updateObjectList :
    (Nat → Option ObjectConstants) → List RenderItem →
      ((Nat → Option ObjectConstants) × List RenderItem)
  | cb, [] => (cb, [])
  | cb, e :: es =>
    if 0 < e.NumFramesDirty then
      let r := updateObjectList (copyData cb e.ObjCBIndex ⟨xmMatrixTranspose e.World⟩) es
      (r.1, { e with NumFramesDirty := e.NumFramesDirty - 1 } :: r.2)
    else
      let r := updateObjectList cb es
      (r.1, e :: r.2)

/-- `ShapesApp::UpdateObjectCBs` (source lines 366-386): run the loop over
`mAllRitems` against the current frame resource's `ObjectCB`. -/
def UpdateObjectCBs (s : ShapesApp) : ShapesApp :=
  let fr := s.currFrameResource
  let r := updateObjectList fr.ObjectCB s.mAllRitems
  { setFrameResource s (frIdx s.mCurrFrameResourceIndex) { fr with ObjectCB := r.1 } with
      mAllRitems := r.2 }

/-- The pass record assembled by `ShapesApp::UpdateMainPassCB` (source
lines 390-410): the view-projection product, the three inverses taken
through their determinants, all six matrices stored transposed, plus eye
position, render-target size and its reciprocal, the near plane 1.0, the
far plane 1000.0, and the timer values. -/
def mainPassRecord (s : ShapesApp) (gt : GameTimer) : PassConstants :=
  let view := s.mView
  let proj := s.mProj
  let viewProj := xmMatrixMultiply view proj
  { View := xmMatrixTranspose view
    InvView := xmMatrixTranspose (xmMatrixInverse view)
    Proj := xmMatrixTranspose proj
    InvProj := xmMatrixTranspose (xmMatrixInverse proj)
    ViewProj := xmMatrixTranspose viewProj
    InvViewProj := xmMatrixTranspose (xmMatrixInverse viewProj)
    EyePosW := s.mEyePos
    RenderTargetSize := (s.mClientWidth, s.mClientHeight)
    InvRenderTargetSize := (1 / s.mClientWidth, 1 / s.mClientHeight)
    NearZ := 1
    FarZ := 1000
    TotalTime := gt.TotalTime
    DeltaTime := gt.DeltaTime }

/-- `ShapesApp::UpdateMainPassCB` (source lines 388-414): rebuild
`mMainPassCB` and copy it into element 0 of the current frame resource's
`PassCB`. -/
def UpdateMainPassCB (s : ShapesApp) (gt : GameTimer) : ShapesApp :=
  let pc := mainPassRecord s gt
  let fr := s.currFrameResource
  { setFrameResource s (frIdx s.mCurrFrameResourceIndex)
      { fr with PassCB := copyData fr.PassCB 0 pc } with
    mMainPassCB := pc }

/-- `ShapesApp::Update` (source lines 205-226), given the completed value
the CPU observes from `mFence->GetCompletedValue()`: advance
`mCurrFrameResourceIndex` to `(mCurrFrameResourceIndex + 1) %
gNumFrameResources` (line 211); if the newly selected slot's `Fence` is
nonzero and above the observed completed value, block (modelled by
`none`: the `WaitForSingleObject(eventHandle, INFINITE)` of line 220 does
not return until the GPU signals the target); otherwise run
`UpdateObjectCBs` then `UpdateMainPassCB`.  `OnKeyboardInput` and
`UpdateCamera` (lines 207-208) only recompute the camera scalars and are
not modelled (the step leaves `mView`, `mProj`, `mEyePos` unchanged). -/
def Update (s : ShapesApp) (gpuCompletedValue : Nat) (gt : GameTimer) : Option ShapesApp :=
  let idx := (s.mCurrFrameResourceIndex + 1) % gNumFrameResources
  let fr := s.mFrameResources (frIdx idx)
  if fr.Fence ≠ 0 ∧ gpuCompletedValue < fr.Fence then
    none
  else
    some (UpdateMainPassCB (UpdateObjectCBs { s with mCurrFrameResourceIndex := idx }) gt)

/-- The frame-resource effects of `ShapesApp::Draw` (source lines
228-295): reset the current slot's command allocator (line 234, modelled
by bumping its reset count), advance the completion counter
(`mCurrFrameResource->Fence = ++mCurrentFence`, line 289) and record it
as the slot's fence target; the queue `Signal` of line 294 schedules the
GPU to eventually complete that target.  The recorded draw commands, the
resource barriers and the swap-chain present touch no frame-resource
state and are not modelled. -/
def Draw (s : ShapesApp) : ShapesApp :=
  let j := frIdx s.mCurrFrameResourceIndex
  let fr := s.mFrameResources j
  let newFence := s.mCurrentFence + 1
  { setFrameResource s j
      { fr with CmdListAllocResets := fr.CmdListAllocResets + 1, Fence := newFence } with
    mCurrentFence := newFence }

/-- One whole CPU frame: `Update` (with the completed value observed at
its wait) followed by `Draw`. -/
def stepFrame (s : ShapesApp) (gpuCompletedValue : Nat) (gt : GameTimer) :
    Option ShapesApp :=
  (Update s gpuCompletedValue gt).map Draw

/-- Run one frame per entry of `sched`, the completed values observed at
the successive waits; `none` as soon as one frame blocks. -/
def runFrames (s : ShapesApp) (gt : GameTimer) : List Nat → Option ShapesApp
  | [] => some s
  | c :: cs =>
    match stepFrame s c gt with
    | none => none
    | some s1 => runFrames s1 gt cs

/-- The descriptor-heap index of object `i`'s CBV for frame resource
`frameIndex`: `heapIndex = frameIndex * objCount + i`
(`ShapesApp::BuildConstantBufferViews`, source line 454; the identical
formula is used by `DrawRenderItems`, line 1298). -/
def objectCbvHeapIndex (frameIndex objCount i : Nat) : Nat :=
  frameIndex * objCount + i

/-- `mPassCbvOffset = objCount * gNumFrameResources`
(`ShapesApp::BuildDescriptorHeaps`, source line 425). -/
def mPassCbvOffsetOf (objCount : Nat) : Nat :=
  objCount * gNumFrameResources

/-- The descriptor-heap index of the pass CBV for frame resource
`frameIndex`: `heapIndex = mPassCbvOffset + frameIndex`
(`ShapesApp::BuildConstantBufferViews`, source line 475; the same index
is consumed in `Draw`, line 266). -/
def passCbvHeapIndex (objCount frameIndex : Nat) : Nat :=
  mPassCbvOffsetOf objCount + frameIndex

/-- The CBV index `DrawRenderItems` binds for one render item:
`cbvIndex = mCurrFrameResourceIndex * mOpaqueRitems.size() + ri->ObjCBIndex`
(source line 1298; `mOpaqueRitems` is the full `mAllRitems`). -/
def drawCbvIndex (s : ShapesApp) (ri : RenderItem) : Nat :=
  s.mCurrFrameResourceIndex * s.mAllRitems.length + ri.ObjCBIndex

/-- Modelled from the spec: marking a render item dirty.  The runtime
mutation path is absent from the source (the scene is static after
`BuildRenderItems`); the policy is stated in the source comment at lines
40-44 ("when we modify obect data we should set `NumFramesDirty =
gNumFrameResources` so that each frame resource gets the update") and in
the spec's `mark_dirty`: store the new transform and reset (not
increment) the staleness counter to the ring depth. -/
def markDirty (e : RenderItem) (w : Mat4) : RenderItem :=
  { e with World := w, NumFramesDirty := gNumFrameResources }

/-- Mark dirty (with a new world transform `w`) the render item whose
`ObjCBIndex` is `k`. -/
def markDirtyAt (s : ShapesApp) (k : Nat) (w : Mat4) : ShapesApp :=
  { s with
    mAllRitems := s.mAllRitems.map fun e => if e.ObjCBIndex = k then markDirty e w else e }

/-- A render item as constructed in `ShapesApp::BuildRenderItems`: the
stored world matrix and the sequential `ObjCBIndex` (`objIndex++`); the
staleness counter takes the `RenderItem` default `gNumFrameResources`. -/
def builtRitem (w : Mat4) (i : Nat) : RenderItem :=
  { World := w, NumFramesDirty := gNumFrameResources, ObjCBIndex := i }

/-- The 31 render items of `ShapesApp::BuildRenderItems` (source lines
852-1281), in construction order with their world matrices: the four wall
boxes, the grid, the sphere, the four tower cylinders, the four cones,
the torus, the twelve rooftop diamonds, the wedge, the pyramid, the
triangular prism and the quad.  `XMMatrixRotationY(0)` has cosine 1 and
sine 0; `XMMatrixRotationY(XM_PIDIV2)` has cosine 0 and sine 1 in the
exact model. -/
def mAllRitemsBuilt : List RenderItem :=
  [ builtRitem (xmMatrixMultiply (xmMatrixRotationY 1 0) (xmMatrixTranslation 0 4 5)) 0
  , builtRitem (xmMatrixMultiply (xmMatrixRotationY 1 0) (xmMatrixTranslation 0 4 (-5))) 1
  , builtRitem (xmMatrixMultiply (xmMatrixRotationY 0 1) (xmMatrixTranslation 5 4 0)) 2
  , builtRitem (xmMatrixMultiply (xmMatrixRotationY 0 1) (xmMatrixTranslation (-5) 4 0)) 3
  , builtRitem (xmMatrixTranslation 0 0 0) 4
  , builtRitem (xmMatrixTranslation 0 1 0) 5
  , builtRitem (xmMatrixTranslation (-5) 10 5) 6
  , builtRitem (xmMatrixTranslation 5 10 5) 7
  , builtRitem (xmMatrixTranslation (-5) 10 (-5)) 8
  , builtRitem (xmMatrixTranslation 5 10 (-5)) 9
  , builtRitem (xmMatrixTranslation (-5) 13 5) 10
  , builtRitem (xmMatrixTranslation 5 13 5) 11
  , builtRitem (xmMatrixTranslation (-5) 13 (-5)) 12
  , builtRitem (xmMatrixTranslation 5 13 (-5)) 13
  , builtRitem (xmMatrixTranslation 0 2 0) 14
  , builtRitem (xmMatrixTranslation (-5) (17/2) 3) 15
  , builtRitem (xmMatrixTranslation (-5) (17/2) 0) 16
  , builtRitem (xmMatrixTranslation (-5) (17/2) (-3)) 17
  , builtRitem (xmMatrixTranslation (-3) (17/2) 5) 18
  , builtRitem (xmMatrixTranslation 0 (17/2) 5) 19
  , builtRitem (xmMatrixTranslation 3 (17/2) 5) 20
  , builtRitem (xmMatrixTranslation (-3) (17/2) (-5)) 21
  , builtRitem (xmMatrixTranslation 0 (17/2) (-5)) 22
  , builtRitem (xmMatrixTranslation 3 (17/2) (-5)) 23
  , builtRitem (xmMatrixTranslation 5 (17/2) (-3)) 24
  , builtRitem (xmMatrixTranslation 5 (17/2) 0) 25
  , builtRitem (xmMatrixTranslation 5 (17/2) 3) 26
  , builtRitem (xmMatrixTranslation 0 (4/5) (11/2)) 27
  , builtRitem (xmMatrixTranslation 0 (3/2) 0) 28
  , builtRitem (xmMatrixTranslation 0 (9/2) 0) 29
  , builtRitem (xmMatrixTranslation 0 5 (-38/5)) 30 ]

/-- Modelled from the spec: one freshly built `FrameResource`
(`ShapesApp::BuildFrameResources`, source lines 841-848, constructing
`FrameResource(device, 1, mAllRitems.size())`; the class body is in
`FrameResource.h`, not under `src/`): a never-reset command allocator,
upload buffers with nothing yet written, and `Fence = 0`. -/
def initialFrameResource : FrameResource :=
  { CmdListAllocResets := 0
    ObjectCB := fun _ => none
    PassCB := fun _ => none
    Fence := 0 }

/-- Modelled from the spec: the default-constructed `PassConstants`
member `mMainPassCB` (class member, source line 117; the defaults live in
`FrameResource.h`, not under `src/`): identity matrices and zero
scalars. -/
def initialPassConstants : PassConstants :=
  { View := 1, InvView := 1, Proj := 1, InvProj := 1, ViewProj := 1, InvViewProj := 1
    EyePosW := (0, 0, 0), RenderTargetSize := (0, 0), InvRenderTargetSize := (0, 0)
    NearZ := 0, FarZ := 0, TotalTime := 0, DeltaTime := 0 }

/-- The `ShapesApp` state after `Initialize` (source lines 168-194):
the scene of `BuildRenderItems`, the `gNumFrameResources` fresh frame
resources of `BuildFrameResources`, `mCurrFrameResourceIndex = 0`
(line 98), the completion counter at 0, identity `mView`/`mProj`
(`MathHelper::Identity4x4()`, lines 124-125), `mEyePos = (0,0,0)`
(line 123) and the `D3DApp` default 800x600 client area (modelled from
the spec: the base-class defaults are not under `src/`). -/
def initialApp : ShapesApp :=
  { mFrameResources := fun _ => initialFrameResource
    mCurrFrameResourceIndex := 0
    mCurrentFence := 0
    mAllRitems := mAllRitemsBuilt
    mMainPassCB := initialPassConstants
    mEyePos := (0, 0, 0)
    mView := 1
    mProj := 1
    mClientWidth := 800
    mClientHeight := 600 }

/-- The ring index the next `Update` selects:
`(mCurrFrameResourceIndex + 1) % gNumFrameResources` (source line 211). -/
def nextIndex (s : ShapesApp) : Nat :=
  (s.mCurrFrameResourceIndex + 1) % gNumFrameResources

/-- The fence target recorded in the slot the next `Update` selects
(`mCurrFrameResource->Fence`, read at source line 216). -/
def nextFence (s : ShapesApp) : Nat :=
  (s.mFrameResources (frIdx (nextIndex s))).Fence

lemma setFrameResource_same (s : ShapesApp) (j : Fin gNumFrameResources)
    (fr : FrameResource) : (setFrameResource s j fr).mFrameResources j = fr := by
  simp [setFrameResource]

lemma setFrameResource_other (s : ShapesApp) (j k : Fin gNumFrameResources)
    (fr : FrameResource) (h : k ≠ j) :
    (setFrameResource s j fr).mFrameResources k = s.mFrameResources k := by
  simp [setFrameResource, h]

lemma updateObjectCBs_currIndex (s : ShapesApp) :
    (UpdateObjectCBs s).mCurrFrameResourceIndex = s.mCurrFrameResourceIndex := rfl

lemma updateObjectCBs_currentFence (s : ShapesApp) :
    (UpdateObjectCBs s).mCurrentFence = s.mCurrentFence := rfl

lemma updateObjectCBs_allRitems (s : ShapesApp) :
    (UpdateObjectCBs s).mAllRitems =
      (updateObjectList s.currFrameResource.ObjectCB s.mAllRitems).2 := rfl

lemma updateObjectCBs_fence (s : ShapesApp) (j : Fin gNumFrameResources) :
    ((UpdateObjectCBs s).mFrameResources j).Fence = (s.mFrameResources j).Fence := by
  by_cases h : j = frIdx s.mCurrFrameResourceIndex
  · subst h
    simp [UpdateObjectCBs, setFrameResource, ShapesApp.currFrameResource]
  · simp [UpdateObjectCBs, setFrameResource, h]

lemma updateObjectCBs_resets (s : ShapesApp) (j : Fin gNumFrameResources) :
    ((UpdateObjectCBs s).mFrameResources j).CmdListAllocResets =
      (s.mFrameResources j).CmdListAllocResets := by
  by_cases h : j = frIdx s.mCurrFrameResourceIndex
  · subst h
    simp [UpdateObjectCBs, setFrameResource, ShapesApp.currFrameResource]
  · simp [UpdateObjectCBs, setFrameResource, h]

lemma updateObjectCBs_passCB (s : ShapesApp) (j : Fin gNumFrameResources) :
    ((UpdateObjectCBs s).mFrameResources j).PassCB = (s.mFrameResources j).PassCB := by
  by_cases h : j = frIdx s.mCurrFrameResourceIndex
  · subst h
    simp [UpdateObjectCBs, setFrameResource, ShapesApp.currFrameResource]
  · simp [UpdateObjectCBs, setFrameResource, h]

lemma updateObjectCBs_objectCB_other (s : ShapesApp) (j : Fin gNumFrameResources)
    (h : j ≠ frIdx s.mCurrFrameResourceIndex) :
    ((UpdateObjectCBs s).mFrameResources j).ObjectCB = (s.mFrameResources j).ObjectCB := by
  simp [UpdateObjectCBs, setFrameResource, h]

lemma updateObjectCBs_objectCB_curr (s : ShapesApp) :
    ((UpdateObjectCBs s).mFrameResources (frIdx s.mCurrFrameResourceIndex)).ObjectCB =
      (updateObjectList s.currFrameResource.ObjectCB s.mAllRitems).1 := by
  simp [UpdateObjectCBs, setFrameResource]

lemma updateMainPassCB_currIndex (s : ShapesApp) (gt : GameTimer) :
    (UpdateMainPassCB s gt).mCurrFrameResourceIndex = s.mCurrFrameResourceIndex := rfl

lemma updateMainPassCB_currentFence (s : ShapesApp) (gt : GameTimer) :
    (UpdateMainPassCB s gt).mCurrentFence = s.mCurrentFence := rfl

lemma updateMainPassCB_allRitems (s : ShapesApp) (gt : GameTimer) :
    (UpdateMainPassCB s gt).mAllRitems = s.mAllRitems := rfl

lemma updateMainPassCB_fence (s : ShapesApp) (gt : GameTimer) (j : Fin gNumFrameResources) :
    ((UpdateMainPassCB s gt).mFrameResources j).Fence = (s.mFrameResources j).Fence := by
  by_cases h : j = frIdx s.mCurrFrameResourceIndex
  · subst h
    simp [UpdateMainPassCB, setFrameResource, ShapesApp.currFrameResource]
  · simp [UpdateMainPassCB, setFrameResource, h]

lemma updateMainPassCB_resets (s : ShapesApp) (gt : GameTimer) (j : Fin gNumFrameResources) :
    ((UpdateMainPassCB s gt).mFrameResources j).CmdListAllocResets =
      (s.mFrameResources j).CmdListAllocResets := by
  by_cases h : j = frIdx s.mCurrFrameResourceIndex
  · subst h
    simp [UpdateMainPassCB, setFrameResource, ShapesApp.currFrameResource]
  · simp [UpdateMainPassCB, setFrameResource, h]

lemma updateMainPassCB_objectCB (s : ShapesApp) (gt : GameTimer)
    (j : Fin gNumFrameResources) :
    ((UpdateMainPassCB s gt).mFrameResources j).ObjectCB =
      (s.mFrameResources j).ObjectCB := by
  by_cases h : j = frIdx s.mCurrFrameResourceIndex
  · subst h
    simp [UpdateMainPassCB, setFrameResource, ShapesApp.currFrameResource]
  · simp [UpdateMainPassCB, setFrameResource, h]

lemma updateMainPassCB_passCB_other (s : ShapesApp) (gt : GameTimer)
    (j : Fin gNumFrameResources) (h : j ≠ frIdx s.mCurrFrameResourceIndex) :
    ((UpdateMainPassCB s gt).mFrameResources j).PassCB = (s.mFrameResources j).PassCB := by
  simp [UpdateMainPassCB, setFrameResource, h]

lemma updateMainPassCB_passCB_curr (s : ShapesApp) (gt : GameTimer) :
    ((UpdateMainPassCB s gt).mFrameResources (frIdx s.mCurrFrameResourceIndex)).PassCB =
      copyData s.currFrameResource.PassCB 0 (mainPassRecord s gt) := by
  simp [UpdateMainPassCB, setFrameResource, ShapesApp.currFrameResource]

lemma draw_currIndex (s : ShapesApp) :
    (Draw s).mCurrFrameResourceIndex = s.mCurrFrameResourceIndex := rfl

lemma draw_currentFence (s : ShapesApp) :
    (Draw s).mCurrentFence = s.mCurrentFence + 1 := rfl

lemma draw_allRitems (s : ShapesApp) : (Draw s).mAllRitems = s.mAllRitems := rfl

lemma draw_objectCB (s : ShapesApp) (j : Fin gNumFrameResources) :
    ((Draw s).mFrameResources j).ObjectCB = (s.mFrameResources j).ObjectCB := by
  by_cases h : j = frIdx s.mCurrFrameResourceIndex
  · subst h
    simp [Draw, setFrameResource]
  · simp [Draw, setFrameResource, h]

lemma draw_passCB (s : ShapesApp) (j : Fin gNumFrameResources) :
    ((Draw s).mFrameResources j).PassCB = (s.mFrameResources j).PassCB := by
  by_cases h : j = frIdx s.mCurrFrameResourceIndex
  · subst h
    simp [Draw, setFrameResource]
  · simp [Draw, setFrameResource, h]

lemma draw_fence_curr (s : ShapesApp) :
    ((Draw s).mFrameResources (frIdx s.mCurrFrameResourceIndex)).Fence =
      s.mCurrentFence + 1 := by
  simp [Draw, setFrameResource]

lemma draw_fence_other (s : ShapesApp) (j : Fin gNumFrameResources)
    (h : j ≠ frIdx s.mCurrFrameResourceIndex) :
    ((Draw s).mFrameResources j).Fence = (s.mFrameResources j).Fence := by
  simp [Draw, setFrameResource, h]

lemma draw_resets_curr (s : ShapesApp) :
    ((Draw s).mFrameResources (frIdx s.mCurrFrameResourceIndex)).CmdListAllocResets =
      (s.mFrameResources (frIdx s.mCurrFrameResourceIndex)).CmdListAllocResets + 1 := by
  simp [Draw, setFrameResource]

lemma draw_resets_other (s : ShapesApp) (j : Fin gNumFrameResources)
    (h : j ≠ frIdx s.mCurrFrameResourceIndex) :
    ((Draw s).mFrameResources j).CmdListAllocResets =
      (s.mFrameResources j).CmdListAllocResets := by
  simp [Draw, setFrameResource, h]

lemma update_eq_none_iff (s : ShapesApp) (c : Nat) (gt : GameTimer) :
    Update s c gt = none ↔ nextFence s ≠ 0 ∧ c < nextFence s := by
  unfold Update nextFence nextIndex
  dsimp only
  split
  · simp_all
  · simp_all

lemma update_eq_some (s : ShapesApp) (c : Nat) (gt : GameTimer) (h : nextFence s ≤ c) :
    Update s c gt =
      some (UpdateMainPassCB
        (UpdateObjectCBs { s with mCurrFrameResourceIndex := nextIndex s }) gt) := by
  unfold Update
  rw [if_neg]
  · rfl
  · intro hc
    have h2 := hc.2
    unfold nextFence nextIndex at h
    omega

lemma update_isSome_iff (s : ShapesApp) (c : Nat) (gt : GameTimer) :
    (Update s c gt).isSome = true ↔ nextFence s ≤ c := by
  constructor
  · intro h
    by_contra hlt
    have hz : nextFence s ≠ 0 := by omega
    have := (update_eq_none_iff s c gt).2 ⟨hz, by omega⟩
    rw [this] at h
    simp at h
  · intro h
    rw [update_eq_some s c gt h]
    rfl

lemma stepFrame_isSome_iff (s : ShapesApp) (c : Nat) (gt : GameTimer) :
    (stepFrame s c gt).isSome = true ↔ nextFence s ≤ c := by
  rw [← update_isSome_iff s c gt]
  unfold stepFrame
  cases Update s c gt <;> simp

lemma stepFrame_eq_some (s : ShapesApp) (c : Nat) (gt : GameTimer) (h : nextFence s ≤ c) :
    stepFrame s c gt =
      some (Draw (UpdateMainPassCB
        (UpdateObjectCBs { s with mCurrFrameResourceIndex := nextIndex s }) gt)) := by
  unfold stepFrame
  rw [update_eq_some s c gt h]
  rfl

lemma decDirty_objCBIndex (e : RenderItem) : (decDirty e).ObjCBIndex = e.ObjCBIndex := by
  unfold decDirty
  split <;> rfl

lemma decDirty_world (e : RenderItem) : (decDirty e).World = e.World := by
  unfold decDirty
  split <;> rfl

lemma decDirty_numFramesDirty (e : RenderItem) :
    (decDirty e).NumFramesDirty =
      if 0 < e.NumFramesDirty then e.NumFramesDirty - 1 else e.NumFramesDirty := by
  unfold decDirty
  split <;> simp_all

lemma updateObjectList_snd (cb : Nat → Option ObjectConstants) (l : List RenderItem) :
    (updateObjectList cb l).2 = l.map decDirty := by
  induction l generalizing cb with
  | nil => rfl
  | cons e es ih =>
    unfold updateObjectList
    split
    · rename_i h
      simp [ih, decDirty, h]
    · rename_i h
      simp [ih, decDirty, h]

lemma updateObjectList_fst_skip (cb : Nat → Option ObjectConstants) (l : List RenderItem)
    (k : Nat) (h : ∀ e ∈ l, 0 < e.NumFramesDirty → e.ObjCBIndex ≠ k) :
    (updateObjectList cb l).1 k = cb k := by
  induction l generalizing cb with
  | nil => rfl
  | cons e es ih =>
    unfold updateObjectList
    split
    · rename_i hd
      have hne : e.ObjCBIndex ≠ k := h e (List.mem_cons_self e es) hd
      have := ih (copyData cb e.ObjCBIndex ⟨xmMatrixTranspose e.World⟩)
        (fun x hx hdx => h x (List.mem_cons_of_mem e hx) hdx)
      simp only at this ⊢
      rw [this]
      simp [copyData, Ne.symm hne]
    · exact ih cb fun x hx hdx => h x (List.mem_cons_of_mem e hx) hdx

lemma updateObjectList_fst_write (cb : Nat → Option ObjectConstants) (l : List RenderItem)
    (e : RenderItem) (hnd : (l.map RenderItem.ObjCBIndex).Nodup) (hmem : e ∈ l)
    (hd : 0 < e.NumFramesDirty) :
    (updateObjectList cb l).1 e.ObjCBIndex = some ⟨xmMatrixTranspose e.World⟩ := by
  induction l generalizing cb with
  | nil => cases hmem
  | cons a es ih =>
    rcases List.mem_cons.1 hmem with he | he
    · subst he
      unfold updateObjectList
      rw [if_pos hd]
      simp only
      have hnotin : ∀ x ∈ es, 0 < x.NumFramesDirty → x.ObjCBIndex ≠ e.ObjCBIndex := by
        intro x hx _
        have := (List.nodup_cons.1 hnd).1
        intro hcontra
        exact this (hcontra ▸ List.mem_map_of_mem RenderItem.ObjCBIndex hx)
      rw [updateObjectList_fst_skip _ es e.ObjCBIndex hnotin]
      simp [copyData]
    · have hnd' : (es.map RenderItem.ObjCBIndex).Nodup := (List.nodup_cons.1 hnd).2
      unfold updateObjectList
      split
      · exact ih _ hnd' he
      · exact ih cb hnd' he

lemma stepFrame_some_elim {s s1 : ShapesApp} {c : Nat} {gt : GameTimer}
    (h : stepFrame s c gt = some s1) :
    s1 = Draw (UpdateMainPassCB
        (UpdateObjectCBs { s with mCurrFrameResourceIndex := nextIndex s }) gt) ∧
      nextFence s ≤ c := by
  have hs : (stepFrame s c gt).isSome = true := by rw [h]; rfl
  have hf := (stepFrame_isSome_iff s c gt).1 hs
  refine ⟨?_, hf⟩
  have heq := stepFrame_eq_some s c gt hf
  rw [heq] at h
  exact (Option.some_inj.1 h).symm

lemma stepFrame_some_currIndex {s s1 : ShapesApp} {c : Nat} {gt : GameTimer}
    (h : stepFrame s c gt = some s1) : s1.mCurrFrameResourceIndex = nextIndex s := by
  obtain ⟨h1, -⟩ := stepFrame_some_elim h
  subst h1
  rfl

lemma stepFrame_some_currentFence {s s1 : ShapesApp} {c : Nat} {gt : GameTimer}
    (h : stepFrame s c gt = some s1) : s1.mCurrentFence = s.mCurrentFence + 1 := by
  obtain ⟨h1, -⟩ := stepFrame_some_elim h
  subst h1
  rfl

lemma stepFrame_some_allRitems {s s1 : ShapesApp} {c : Nat} {gt : GameTimer}
    (h : stepFrame s c gt = some s1) : s1.mAllRitems = s.mAllRitems.map decDirty := by
  obtain ⟨h1, -⟩ := stepFrame_some_elim h
  subst h1
  rw [draw_allRitems, updateMainPassCB_allRitems, updateObjectCBs_allRitems,
    updateObjectList_snd]

lemma stepFrame_some_objectCB_other {s s1 : ShapesApp} {c : Nat} {gt : GameTimer}
    (h : stepFrame s c gt = some s1) (j : Fin gNumFrameResources)
    (hj : j ≠ frIdx (nextIndex s)) :
    (s1.mFrameResources j).ObjectCB = (s.mFrameResources j).ObjectCB := by
  obtain ⟨h1, -⟩ := stepFrame_some_elim h
  subst h1
  rw [draw_objectCB, updateMainPassCB_objectCB, updateObjectCBs_objectCB_other _ _ hj]

lemma stepFrame_some_objectCB_write {s s1 : ShapesApp} {c : Nat} {gt : GameTimer}
    (h : stepFrame s c gt = some s1)
    (hnd : (s.mAllRitems.map RenderItem.ObjCBIndex).Nodup)
    (e : RenderItem) (hmem : e ∈ s.mAllRitems) (hd : 0 < e.NumFramesDirty) :
    (s1.mFrameResources (frIdx (nextIndex s))).ObjectCB e.ObjCBIndex =
      some ⟨xmMatrixTranspose e.World⟩ := by
  obtain ⟨h1, -⟩ := stepFrame_some_elim h
  subst h1
  rw [draw_objectCB, updateMainPassCB_objectCB]
  have := updateObjectCBs_objectCB_curr { s with mCurrFrameResourceIndex := nextIndex s }
  rw [this]
  exact updateObjectList_fst_write _ _ e hnd hmem hd

lemma stepFrame_some_objectCB_skip {s s1 : ShapesApp} {c : Nat} {gt : GameTimer}
    (h : stepFrame s c gt = some s1) (k : Nat)
    (hk : ∀ e ∈ s.mAllRitems, 0 < e.NumFramesDirty → e.ObjCBIndex ≠ k) :
    (s1.mFrameResources (frIdx (nextIndex s))).ObjectCB k =
      (s.mFrameResources (frIdx (nextIndex s))).ObjectCB k := by
  obtain ⟨h1, -⟩ := stepFrame_some_elim h
  subst h1
  rw [draw_objectCB, updateMainPassCB_objectCB]
  have := updateObjectCBs_objectCB_curr { s with mCurrFrameResourceIndex := nextIndex s }
  rw [this]
  exact updateObjectList_fst_skip _ _ k hk

lemma stepFrame_some_fence_curr {s s1 : ShapesApp} {c : Nat} {gt : GameTimer}
    (h : stepFrame s c gt = some s1) :
    (s1.mFrameResources (frIdx (nextIndex s))).Fence = s.mCurrentFence + 1 := by
  obtain ⟨h1, -⟩ := stepFrame_some_elim h
  subst h1
  exact draw_fence_curr _

lemma stepFrame_some_fence_other {s s1 : ShapesApp} {c : Nat} {gt : GameTimer}
    (h : stepFrame s c gt = some s1) (j : Fin gNumFrameResources)
    (hj : j ≠ frIdx (nextIndex s)) :
    (s1.mFrameResources j).Fence = (s.mFrameResources j).Fence := by
  obtain ⟨h1, -⟩ := stepFrame_some_elim h
  subst h1
  rw [draw_fence_other _ _ hj, updateMainPassCB_fence, updateObjectCBs_fence]

lemma runFrames_cons_iff (s : ShapesApp) (gt : GameTimer) (c : Nat) (cs : List Nat)
    (s2 : ShapesApp) :
    runFrames s gt (c :: cs) = some s2 ↔
      ∃ s1, stepFrame s c gt = some s1 ∧ runFrames s1 gt cs = some s2 := by
  cases h : stepFrame s c gt <;> simp [runFrames, h]

lemma runFrames_some_currentFence {s s2 : ShapesApp} {gt : GameTimer} {cs : List Nat}
    (h : runFrames s gt cs = some s2) :
    s2.mCurrentFence = s.mCurrentFence + cs.length := by
  induction cs generalizing s with
  | nil =>
    cases h
    rfl
  | cons c cs ih =>
    obtain ⟨s1, h1, h2⟩ := (runFrames_cons_iff s gt c cs s2).1 h
    have := ih h2
    rw [this, stepFrame_some_currentFence h1]
    simp [List.length_cons]
    omega

lemma runFrames_some_currIndex {s s2 : ShapesApp} {gt : GameTimer} {cs : List Nat}
    (h : runFrames s gt cs = some s2) (hi : s.mCurrFrameResourceIndex < gNumFrameResources) :
    s2.mCurrFrameResourceIndex =
      (s.mCurrFrameResourceIndex + cs.length) % gNumFrameResources := by
  induction cs generalizing s with
  | nil =>
    have h9 : s = s2 := Option.some_inj.1 h
    subst h9
    simp only [gNumFrameResources] at hi ⊢
    simp only [List.length_nil]
    omega
  | cons c cs ih =>
    obtain ⟨s1, h1, h2⟩ := (runFrames_cons_iff s gt c cs s2).1 h
    have hidx1 : s1.mCurrFrameResourceIndex = nextIndex s := stepFrame_some_currIndex h1
    have hi1 : s1.mCurrFrameResourceIndex < gNumFrameResources := by
      rw [hidx1]
      exact Nat.mod_lt _ (by decide)
    have := ih h2 hi1
    rw [this, hidx1]
    unfold nextIndex
    simp only [gNumFrameResources, List.length_cons]
    omega

/-- The fence value the ring's slot `j` holds after `k` submitted frames
(counting from the initial state, where frame `t`, `1 ≤ t ≤ k`, is
submitted against slot `t % 3` and records target `t`): the largest such
`t` hitting `j`, or `0` if slot `j` was never used. -/
def lastUse (k j : Nat) : Nat :=
  if 1 ≤ k ∧ k % 3 = j then k
  else if 2 ≤ k ∧ (k - 1) % 3 = j then k - 1
  else if 3 ≤ k ∧ (k - 2) % 3 = j then k - 2
  else 0

lemma lastUse_succ_self (k : Nat) : lastUse (k + 1) ((k + 1) % 3) = k + 1 := by
  unfold lastUse
  split_ifs <;> omega

lemma lastUse_succ_other (k j : Nat) (hj : j < 3) (h : (k + 1) % 3 ≠ j) :
    lastUse (k + 1) j = lastUse k j := by
  unfold lastUse
  split_ifs <;> omega

lemma lastUse_next (k : Nat) :
    lastUse k ((k + 1) % 3) = if 3 ≤ k then k - 2 else 0 := by
  unfold lastUse
  split_ifs <;> omega

/-- The reachable-state characterisation of the frame-resource ring:
the current index tracks the completion counter modulo the ring size, and
each slot's recorded fence target is exactly the last counter value
submitted against it. -/
def RingInv (s : ShapesApp) : Prop :=
  s.mCurrFrameResourceIndex = s.mCurrentFence % 3 ∧
    ∀ j : Fin gNumFrameResources, (s.mFrameResources j).Fence = lastUse s.mCurrentFence j.val

lemma ringInv_initialApp : RingInv initialApp := by
  constructor
  · rfl
  · intro j
    show (0 : Nat) = lastUse 0 j.val
    unfold lastUse
    split_ifs <;> omega

lemma frIdx_nextIndex_val (s : ShapesApp) (hidx : s.mCurrFrameResourceIndex = s.mCurrentFence % 3) :
    (frIdx (nextIndex s)).val = (s.mCurrentFence + 1) % 3 := by
  have h9 : (frIdx (nextIndex s)).val = nextIndex s % gNumFrameResources := rfl
  rw [h9]
  unfold nextIndex
  rw [hidx]
  simp only [gNumFrameResources]
  omega

lemma ringInv_step {s s1 : ShapesApp} {c : Nat} {gt : GameTimer} (hI : RingInv s)
    (h : stepFrame s c gt = some s1) : RingInv s1 := by
  obtain ⟨hidx, hf⟩ := hI
  have hci := stepFrame_some_currIndex h
  have hcf := stepFrame_some_currentFence h
  constructor
  · rw [hci, hcf]
    unfold nextIndex
    rw [hidx]
    simp only [gNumFrameResources]
    omega
  · intro j
    rw [hcf]
    by_cases hj : j = frIdx (nextIndex s)
    · subst hj
      rw [stepFrame_some_fence_curr h, frIdx_nextIndex_val s hidx, lastUse_succ_self]
    · rw [stepFrame_some_fence_other h j hj, hf j]
      have hne : (s.mCurrentFence + 1) % 3 ≠ j.val := by
        intro hc
        apply hj
        apply Fin.ext
        rw [frIdx_nextIndex_val s hidx]
        exact hc.symm
      exact (lastUse_succ_other s.mCurrentFence j.val j.isLt hne).symm

lemma ringInv_runFrames {s s2 : ShapesApp} {gt : GameTimer} {cs : List Nat}
    (hI : RingInv s) (h : runFrames s gt cs = some s2) : RingInv s2 := by
  induction cs generalizing s with
  | nil =>
    cases h
    exact hI
  | cons c cs ih =>
    obtain ⟨s1, h1, h2⟩ := (runFrames_cons_iff s gt c cs s2).1 h
    exact ih (ringInv_step hI h1) h2

lemma ringInv_nextFence {s : ShapesApp} (hI : RingInv s) :
    nextFence s = if 3 ≤ s.mCurrentFence then s.mCurrentFence - 2 else 0 := by
  obtain ⟨hidx, hf⟩ := hI
  unfold nextFence
  rw [hf (frIdx (nextIndex s))]
  rw [frIdx_nextIndex_val s hidx]
  exact lastUse_next s.mCurrentFence

/-- The number of submitted frames whose completion targets exceed an
observed completed value: the targets handed out so far are `1, 2, ...,
mCurrentFence` (each `Draw` submits exactly one, source line 289). -/
def pendingSubmissions (s : ShapesApp) (completedValue : Nat) : Nat :=
  ((List.range s.mCurrentFence).filter fun t => decide (completedValue < t + 1)).length

lemma range_filter_length (k c : Nat) :
    ((List.range k).filter fun t => decide (c < t + 1)).length = k - c := by
  induction k with
  | zero => simp
  | succ n ih =>
    rw [List.range_succ, List.filter_append, List.length_append, ih]
    by_cases h : c < n + 1
    · simp [h]
      omega
    · simp [h]
      omega

lemma pendingSubmissions_eq (s : ShapesApp) (c : Nat) :
    pendingSubmissions s c = s.mCurrentFence - c :=
  range_filter_length s.mCurrentFence c

lemma frIdx_val (n : Nat) : (frIdx n).val = n % gNumFrameResources := rfl

lemma frIdx_congr {a b : Nat} (h : a % gNumFrameResources = b % gNumFrameResources) :
    frIdx a = frIdx b :=
  Fin.ext h

lemma frIdx_ne {a b : Nat} (h : a % gNumFrameResources ≠ b % gNumFrameResources) :
    frIdx a ≠ frIdx b :=
  fun hc => h (congrArg Fin.val hc)

lemma map_objCBIndex_decDirty (l : List RenderItem) :
    (l.map decDirty).map RenderItem.ObjCBIndex = l.map RenderItem.ObjCBIndex := by
  rw [List.map_map]
  exact List.map_congr_left fun a _ => decDirty_objCBIndex a

lemma mul_add_inj {n a b c d : Nat} (hb : b < n) (hd : d < n)
    (h : a * n + b = c * n + d) : a = c ∧ b = d := by
  have hac : a = c := by
    by_contra hne
    rcases Nat.lt_or_ge a c with hlt | hge
    · have h2 := mul_le_mul_right' (Nat.succ_le_of_lt hlt) n
      rw [Nat.succ_mul] at h2
      omega
    · have hlt2 : c < a := by omega
      have h2 := mul_le_mul_right' (Nat.succ_le_of_lt hlt2) n
      rw [Nat.succ_mul] at h2
      omega
  subst hac
  omega

/-- A shared pair of timer arguments for the concrete instantiations. -/
def gtZero : GameTimer := ⟨0, 0⟩

/-- A concrete render item with a fresh staleness counter, for the
concrete instantiations. -/
def demoItemA : RenderItem :=
  { World := xmMatrixTranslation 1 2 3, NumFramesDirty := gNumFrameResources, ObjCBIndex := 0 }

/-- A concrete render item whose staleness counter has already reached
zero, for the concrete instantiations. -/
def demoItemB : RenderItem :=
  { World := 1, NumFramesDirty := 0, ObjCBIndex := 1 }

/-- The initial application state restricted to a two-item scene, for the
concrete instantiations. -/
def demoApp : ShapesApp :=
  { initialApp with mAllRitems := [demoItemA, demoItemB] }

/-- C1: the CPU advance step reuses the newly selected ring slot (the
whole frame — object-table writes, pass-record write, and the command
allocator reset of `Draw` — runs) exactly when the observed completed
value has reached the fence target last recorded for that slot; when the
recorded target is nonzero and exceeds the completed value the step
blocks (`none`), never returning early, and the allocator of the reused
slot is reset exactly once per completed frame. -/
theorem claim_C1 (s : ShapesApp) (c : Nat) (gt : GameTimer) :
    ((stepFrame s c gt).isSome = true ↔ nextFence s ≤ c) ∧
    (stepFrame s c gt).map
        (fun t => (t.mFrameResources (frIdx (nextIndex s))).CmdListAllocResets) =
      (stepFrame s c gt).map
        (fun _ => (s.mFrameResources (frIdx (nextIndex s))).CmdListAllocResets + 1) := by
  refine ⟨stepFrame_isSome_iff s c gt, ?_⟩
  by_cases h : nextFence s ≤ c
  · rw [stepFrame_eq_some s c gt h]
    simp only [Option.map_some']
    have h1 := draw_resets_curr
      (UpdateMainPassCB (UpdateObjectCBs { s with mCurrFrameResourceIndex := nextIndex s }) gt)
    have h2 : ((UpdateMainPassCB
          (UpdateObjectCBs { s with mCurrFrameResourceIndex := nextIndex s }) gt).mFrameResources
            (frIdx (nextIndex s))).CmdListAllocResets =
        (s.mFrameResources (frIdx (nextIndex s))).CmdListAllocResets := by
      rw [updateMainPassCB_resets, updateObjectCBs_resets]
    exact congrArg some (h1.trans (congrArg (· + 1) h2))
  · have hn : stepFrame s c gt = none := by
      cases hh : stepFrame s c gt with
      | none => rfl
      | some t =>
        exact absurd ((stepFrame_isSome_iff s c gt).1 (by rw [hh]; rfl)) h
    rw [hn]
    rfl

/-- C1 witness: at the initial state with completed value 0 the recorded
target is 0, so the step proceeds. -/
theorem claim_C1_witness :
    nextFence initialApp ≤ 0 ∧ (stepFrame initialApp 0 gtZero).isSome = true :=
  ⟨by decide, (claim_C1 initialApp 0 gtZero).1.mpr (by decide)⟩

/-- C3: the binding-index mapping is injective over its domain, and
object indices never collide with pass indices: for slots below the ring
depth and object indices below the object count,
`objectCbvHeapIndex s1 n o1 = objectCbvHeapIndex s2 n o2` iff `s1 = s2`
and `o1 = o2`, and no object index equals any pass index
`passCbvHeapIndex n s2 = n * gNumFrameResources + s2`. -/
theorem claim_C3 (s1 s2 o1 o2 objCount : Nat)
    (hs1 : s1 < gNumFrameResources) (hs2 : s2 < gNumFrameResources)
    (ho1 : o1 < objCount) (ho2 : o2 < objCount) :
    (objectCbvHeapIndex s1 objCount o1 = objectCbvHeapIndex s2 objCount o2 ↔
      (s1 = s2 ∧ o1 = o2)) ∧
    objectCbvHeapIndex s1 objCount o1 ≠ passCbvHeapIndex objCount s2 := by
  constructor
  · constructor
    · intro h
      exact mul_add_inj ho1 ho2 h
    · intro h
      rw [h.1, h.2]
  · intro heq
    unfold objectCbvHeapIndex passCbvHeapIndex mPassCbvOffsetOf at heq
    have hb : s1 * objCount ≤ 2 * objCount := by
      apply mul_le_mul_right'
      have : s1 < 3 := hs1
      omega
    have hc : objCount * gNumFrameResources = 3 * objCount := by
      simp only [gNumFrameResources]
      ring
    rw [hc] at heq
    omega

/-- C3 witness: a concrete instantiation with 5 objects, slots 1 and 2,
objects 0 and 1. -/
theorem claim_C3_witness :
    (1 < gNumFrameResources ∧ 2 < gNumFrameResources ∧ 0 < 5 ∧ 1 < 5) ∧
    ((objectCbvHeapIndex 1 5 0 = objectCbvHeapIndex 2 5 1 ↔ ((1 : Nat) = 2 ∧ (0 : Nat) = 1)) ∧
      objectCbvHeapIndex 1 5 0 ≠ passCbvHeapIndex 5 2) :=
  ⟨⟨by decide, by decide, by decide, by decide⟩,
    claim_C3 1 2 0 1 5 (by decide) (by decide) (by decide) (by decide)⟩

lemma updateObjectCBs_objectCB_write_of_dirty (s : ShapesApp) (e : RenderItem)
    (hnd : (s.mAllRitems.map RenderItem.ObjCBIndex).Nodup) (hmem : e ∈ s.mAllRitems)
    (hd : 0 < e.NumFramesDirty) :
    ((UpdateObjectCBs s).mFrameResources (frIdx s.mCurrFrameResourceIndex)).ObjectCB
        e.ObjCBIndex = some ⟨xmMatrixTranspose e.World⟩ := by
  have h1 := congrFun (updateObjectCBs_objectCB_curr s) e.ObjCBIndex
  exact h1.trans (updateObjectList_fst_write _ _ e hnd hmem hd)

lemma updateObjectCBs_objectCB_skip_of_clean (s : ShapesApp) (e : RenderItem)
    (hnd : (s.mAllRitems.map RenderItem.ObjCBIndex).Nodup) (hmem : e ∈ s.mAllRitems)
    (hd : ¬0 < e.NumFramesDirty) :
    ((UpdateObjectCBs s).mFrameResources (frIdx s.mCurrFrameResourceIndex)).ObjectCB
        e.ObjCBIndex =
      (s.mFrameResources (frIdx s.mCurrFrameResourceIndex)).ObjectCB e.ObjCBIndex := by
  have hk : ∀ x ∈ s.mAllRitems, 0 < x.NumFramesDirty → x.ObjCBIndex ≠ e.ObjCBIndex := by
    intro x hx hdx hcontra
    have hxe : x = e := List.inj_on_of_nodup_map hnd hx hmem hcontra
    exact hd (hxe ▸ hdx)
  have h1 := congrFun (updateObjectCBs_objectCB_curr s) e.ObjCBIndex
  exact h1.trans (updateObjectList_fst_skip _ _ e.ObjCBIndex hk)

/-- C4: `UpdateObjectCBs` writes exactly the objects with staleness
counter above zero: the item list becomes the pointwise decrement
(counter reduced by exactly one when positive, untouched otherwise), and
the current slot's table at a given object's stable index receives the
transpose of that object's current world transform when its counter is
positive, and is left unchanged when its counter is zero (or below). -/
theorem claim_C4 (s : ShapesApp) (e : RenderItem)
    (hnd : (s.mAllRitems.map RenderItem.ObjCBIndex).Nodup) (hmem : e ∈ s.mAllRitems) :
    (UpdateObjectCBs s).mAllRitems = s.mAllRitems.map
      (fun x => { x with NumFramesDirty :=
        if 0 < x.NumFramesDirty then x.NumFramesDirty - 1 else x.NumFramesDirty }) ∧
    ((UpdateObjectCBs s).mFrameResources (frIdx s.mCurrFrameResourceIndex)).ObjectCB
        e.ObjCBIndex =
      (if 0 < e.NumFramesDirty then some ⟨xmMatrixTranspose e.World⟩
       else (s.mFrameResources (frIdx s.mCurrFrameResourceIndex)).ObjectCB e.ObjCBIndex) := by
  constructor
  · rw [updateObjectCBs_allRitems, updateObjectList_snd]
    apply List.map_congr_left
    intro a _
    unfold decDirty
    split_ifs with h
    · rfl
    · rfl
  · by_cases hd : 0 < e.NumFramesDirty
    · rw [if_pos hd]
      exact updateObjectCBs_objectCB_write_of_dirty s e hnd hmem hd
    · rw [if_neg hd]
      exact updateObjectCBs_objectCB_skip_of_clean s e hnd hmem hd

/-- C4 witness: a two-item scene with one freshly dirty item. -/
theorem claim_C4_witness :
    ((demoApp.mAllRitems.map RenderItem.ObjCBIndex).Nodup ∧ demoItemA ∈ demoApp.mAllRitems) ∧
    ((UpdateObjectCBs demoApp).mAllRitems = demoApp.mAllRitems.map
        (fun x => { x with NumFramesDirty :=
          if 0 < x.NumFramesDirty then x.NumFramesDirty - 1 else x.NumFramesDirty }) ∧
      ((UpdateObjectCBs demoApp).mFrameResources
            (frIdx demoApp.mCurrFrameResourceIndex)).ObjectCB demoItemA.ObjCBIndex =
        (if 0 < demoItemA.NumFramesDirty then some ⟨xmMatrixTranspose demoItemA.World⟩
         else (demoApp.mFrameResources
            (frIdx demoApp.mCurrFrameResourceIndex)).ObjectCB demoItemA.ObjCBIndex)) :=
  ⟨⟨by decide, List.mem_cons_self _ _⟩,
    claim_C4 demoApp demoItemA (by decide) (List.mem_cons_self _ _)⟩

/-- C9: the staleness counter never goes negative — the per-frame commit
decrements only counters that are strictly positive — and an object whose
counter has reached zero is neither decremented further nor written into
any slot again (its entry in the current slot's table is untouched). -/
theorem claim_C9 (s : ShapesApp) (e : RenderItem)
    (hall : (s.mAllRitems.all fun x => decide (0 ≤ x.NumFramesDirty)) = true)
    (hnd : (s.mAllRitems.map RenderItem.ObjCBIndex).Nodup) (hmem : e ∈ s.mAllRitems)
    (h0 : e.NumFramesDirty = 0) :
    ((UpdateObjectCBs s).mAllRitems.all fun x => decide (0 ≤ x.NumFramesDirty)) = true ∧
    decDirty e = e ∧
    ((UpdateObjectCBs s).mFrameResources (frIdx s.mCurrFrameResourceIndex)).ObjectCB
        e.ObjCBIndex =
      (s.mFrameResources (frIdx s.mCurrFrameResourceIndex)).ObjectCB e.ObjCBIndex := by
  refine ⟨?_, ?_, ?_⟩
  · rw [updateObjectCBs_allRitems, updateObjectList_snd, List.all_map]
    simp only [List.all_eq_true, decide_eq_true_eq, Function.comp] at hall ⊢
    intro a ha
    have := hall a ha
    rw [decDirty_numFramesDirty]
    split_ifs <;> omega
  · simp [decDirty, h0]
  · exact updateObjectCBs_objectCB_skip_of_clean s e hnd hmem (by omega)

/-- C9 witness: a two-item scene whose second item has counter zero. -/
theorem claim_C9_witness :
    ((demoApp.mAllRitems.all fun x => decide (0 ≤ x.NumFramesDirty)) = true ∧
      (demoApp.mAllRitems.map RenderItem.ObjCBIndex).Nodup ∧
      demoItemB ∈ demoApp.mAllRitems ∧ demoItemB.NumFramesDirty = 0) ∧
    (((UpdateObjectCBs demoApp).mAllRitems.all
        fun x => decide (0 ≤ x.NumFramesDirty)) = true ∧
      decDirty demoItemB = demoItemB ∧
      ((UpdateObjectCBs demoApp).mFrameResources
          (frIdx demoApp.mCurrFrameResourceIndex)).ObjectCB demoItemB.ObjCBIndex =
        (demoApp.mFrameResources
          (frIdx demoApp.mCurrFrameResourceIndex)).ObjectCB demoItemB.ObjCBIndex) :=
  ⟨⟨by decide, by decide, List.mem_cons_of_mem _ (List.mem_cons_self _ _), by decide⟩,
    claim_C9 demoApp demoItemB (by decide) (by decide)
      (List.mem_cons_of_mem _ (List.mem_cons_self _ _)) (by decide)⟩

/-- C10: a single frame's CPU update writes only the currently selected
slot: for every other ring slot, both the object table and the pass
record are exactly what they were before the update. -/
theorem claim_C10 (s : ShapesApp) (c : Nat) (gt : GameTimer) (j : Fin gNumFrameResources)
    (hj : j ≠ frIdx (nextIndex s)) (hs : (Update s c gt).isSome = true) :
    (Update s c gt).map (fun t => (t.mFrameResources j).ObjectCB) =
      some ((s.mFrameResources j).ObjectCB) ∧
    (Update s c gt).map (fun t => (t.mFrameResources j).PassCB) =
      some ((s.mFrameResources j).PassCB) := by
  have hle := (update_isSome_iff s c gt).1 hs
  rw [update_eq_some s c gt hle]
  simp only [Option.map_some']
  constructor
  · exact congrArg some ((updateMainPassCB_objectCB _ gt j).trans
      (updateObjectCBs_objectCB_other _ j hj))
  · exact congrArg some ((updateMainPassCB_passCB_other _ gt j hj).trans
      (updateObjectCBs_passCB _ j))

/-- C10 witness: at the initial state the update selects slot 1; slot 2
is untouched. -/
theorem claim_C10_witness :
    (frIdx 2 ≠ frIdx (nextIndex initialApp) ∧ (Update initialApp 0 gtZero).isSome = true) ∧
    ((Update initialApp 0 gtZero).map (fun t => (t.mFrameResources (frIdx 2)).ObjectCB) =
        some ((initialApp.mFrameResources (frIdx 2)).ObjectCB) ∧
      (Update initialApp 0 gtZero).map (fun t => (t.mFrameResources (frIdx 2)).PassCB) =
        some ((initialApp.mFrameResources (frIdx 2)).PassCB)) :=
  ⟨⟨by decide, rfl⟩, claim_C10 initialApp 0 gtZero (frIdx 2) (by decide) rfl⟩

/-- C7: the pass-data update runs on every frame that proceeds, with no
staleness tracking — for any state whatsoever (whatever the staleness
counters hold), a non-blocked `Update` leaves the current slot's pass
record at element 0 equal to `mainPassRecord`: the view-projection
product, the inverses of view, projection and view-projection (each
computed through its determinant, see `xmMatrixInverse`), all six
matrices transposed, plus eye position, render-target size and its
reciprocal, near plane 1, far plane 1000, total time and delta time. -/
theorem claim_C7 (s : ShapesApp) (c : Nat) (gt : GameTimer) (h : nextFence s ≤ c) :
    (Update s c gt).map
        (fun t => (t.mFrameResources (frIdx (nextIndex s))).PassCB 0) =
      some (some (mainPassRecord s gt)) := by
  rw [update_eq_some s c gt h]
  have h3 := congrFun (updateMainPassCB_passCB_curr
    (UpdateObjectCBs { s with mCurrFrameResourceIndex := nextIndex s }) gt) 0
  have h4 : ((UpdateMainPassCB
        (UpdateObjectCBs { s with mCurrFrameResourceIndex := nextIndex s }) gt).mFrameResources
          (frIdx (nextIndex s))).PassCB 0 = some (mainPassRecord s gt) := h3.trans rfl
  exact congrArg some h4

/-- C7 witness: the initial state with completed value 0. -/
theorem claim_C7_witness :
    nextFence initialApp ≤ 0 ∧
    (Update initialApp 0 gtZero).map
        (fun t => (t.mFrameResources (frIdx (nextIndex initialApp))).PassCB 0) =
      some (some (mainPassRecord initialApp gtZero)) :=
  ⟨by decide, claim_C7 initialApp 0 gtZero (by decide)⟩

/-- C8: slot selection is strictly round-robin with ring depth
`gNumFrameResources = 3` — `Update` advances the index to
`(current + 1) % gNumFrameResources`, so after `k` frames the index is
`(start + k) % gNumFrameResources` and each slot recurs exactly every 3
frames; initially every slot's recorded target is 0, and a slot whose
recorded target is 0 is immediately usable: the blocking wait is skipped
for every observed completed value, even 0. -/
theorem claim_C8 (s : ShapesApp) (c : Nat) (gt : GameTimer) (sched : List Nat)
    (s2 : ShapesApp) (hi : s.mCurrFrameResourceIndex < gNumFrameResources)
    (hrun : runFrames s gt sched = some s2) (h0 : nextFence s = 0) :
    gNumFrameResources = 3 ∧
    (Update s c gt).isSome = true ∧
    (Update s c gt).map (fun t => t.mCurrFrameResourceIndex) =
      some ((s.mCurrFrameResourceIndex + 1) % gNumFrameResources) ∧
    s2.mCurrFrameResourceIndex =
      (s.mCurrFrameResourceIndex + sched.length) % gNumFrameResources ∧
    (initialApp.mFrameResources (frIdx 0)).Fence = 0 ∧
    (initialApp.mFrameResources (frIdx 1)).Fence = 0 ∧
    (initialApp.mFrameResources (frIdx 2)).Fence = 0 := by
  have hle : nextFence s ≤ c := by rw [h0]; exact Nat.zero_le c
  refine ⟨rfl, (update_isSome_iff s c gt).2 hle, ?_, runFrames_some_currIndex hrun hi,
    rfl, rfl, rfl⟩
  rw [update_eq_some s c gt hle]
  rfl

/-- C8 witness: the initial state, the empty schedule and completed
value 0. -/
theorem claim_C8_witness :
    (initialApp.mCurrFrameResourceIndex < gNumFrameResources ∧
      runFrames initialApp gtZero [] = some initialApp ∧ nextFence initialApp = 0) ∧
    ((Update initialApp 0 gtZero).isSome = true ∧
      (Update initialApp 0 gtZero).map (fun t => t.mCurrFrameResourceIndex) =
        some ((initialApp.mCurrFrameResourceIndex + 1) % gNumFrameResources) ∧
      initialApp.mCurrFrameResourceIndex =
        (initialApp.mCurrFrameResourceIndex + ([] : List Nat).length) % gNumFrameResources ∧
      (initialApp.mFrameResources (frIdx 0)).Fence = 0 ∧
      (initialApp.mFrameResources (frIdx 1)).Fence = 0 ∧
      (initialApp.mFrameResources (frIdx 2)).Fence = 0) :=
  ⟨⟨by decide, rfl, by decide⟩,
    (claim_C8 initialApp 0 gtZero [] initialApp (by decide) rfl (by decide)).2⟩

lemma map_objCBIndex_markDirtyAt (l : List RenderItem) (k : Nat) (w : Mat4) :
    ((l.map fun x => if x.ObjCBIndex = k then markDirty x w else x).map
        RenderItem.ObjCBIndex) = l.map RenderItem.ObjCBIndex := by
  rw [List.map_map]
  apply List.map_congr_left
  intro a _
  by_cases h : a.ObjCBIndex = k
  · simp [h, markDirty]
  · simp [h]

/-- The three consecutive frame steps taken from a state in which item
`e` has a full staleness counter: step `k` writes the transposed world of
`e` into slot `(current + k) % 3` and into no other slot, so after the
three steps every slot of the ring holds the value captured at the time
the counter was set. -/
lemma propagation3 (s : ShapesApp) (gt : GameTimer) (e : RenderItem) (c1 c2 c3 : Nat)
    (hnd : (s.mAllRitems.map RenderItem.ObjCBIndex).Nodup)
    (hmem : e ∈ s.mAllRitems)
    (hd : e.NumFramesDirty = (gNumFrameResources : Int))
    (hrun : (runFrames s gt [c1, c2, c3]).isSome = true) :
    ((runFrames s gt [c1]).map
        (fun t => (t.mFrameResources (frIdx (s.mCurrFrameResourceIndex + 1))).ObjectCB
          e.ObjCBIndex) = some (some ⟨xmMatrixTranspose e.World⟩)) ∧
    (∀ j : Fin gNumFrameResources, j ≠ frIdx (s.mCurrFrameResourceIndex + 1) →
      (runFrames s gt [c1]).map (fun t => (t.mFrameResources j).ObjectCB e.ObjCBIndex) =
        some ((s.mFrameResources j).ObjectCB e.ObjCBIndex)) ∧
    ((runFrames s gt [c1, c2]).map
        (fun t => (t.mFrameResources (frIdx (s.mCurrFrameResourceIndex + 1))).ObjectCB
          e.ObjCBIndex) = some (some ⟨xmMatrixTranspose e.World⟩)) ∧
    ((runFrames s gt [c1, c2]).map
        (fun t => (t.mFrameResources (frIdx (s.mCurrFrameResourceIndex + 2))).ObjectCB
          e.ObjCBIndex) = some (some ⟨xmMatrixTranspose e.World⟩)) ∧
    (∀ j : Fin gNumFrameResources, j ≠ frIdx (s.mCurrFrameResourceIndex + 1) →
      j ≠ frIdx (s.mCurrFrameResourceIndex + 2) →
      (runFrames s gt [c1, c2]).map
        (fun t => (t.mFrameResources j).ObjectCB e.ObjCBIndex) =
        some ((s.mFrameResources j).ObjectCB e.ObjCBIndex)) ∧
    (∀ j : Fin gNumFrameResources,
      (runFrames s gt [c1, c2, c3]).map
        (fun t => (t.mFrameResources j).ObjectCB e.ObjCBIndex) =
        some (some ⟨xmMatrixTranspose e.World⟩)) := by
  obtain ⟨s3, hrun3⟩ := Option.isSome_iff_exists.1 hrun
  obtain ⟨s1, h1, hr1⟩ := (runFrames_cons_iff s gt c1 [c2, c3] s3).1 hrun3
  obtain ⟨s2, h2, hr2⟩ := (runFrames_cons_iff s1 gt c2 [c3] s3).1 hr1
  obtain ⟨s3x, h3, hr3⟩ := (runFrames_cons_iff s2 gt c3 [] s3).1 hr2
  have hs3 : s3x = s3 := Option.some_inj.1 hr3
  subst hs3
  have hrunEq1 : runFrames s gt [c1] = some s1 :=
    (runFrames_cons_iff s gt c1 [] s1).2 ⟨s1, h1, rfl⟩
  have hrunEq2 : runFrames s gt [c1, c2] = some s2 :=
    (runFrames_cons_iff s gt c1 [c2] s2).2
      ⟨s1, h1, (runFrames_cons_iff s1 gt c2 [] s2).2 ⟨s2, h2, rfl⟩⟩
  have idx1 : s1.mCurrFrameResourceIndex = nextIndex s := stepFrame_some_currIndex h1
  have idx2 : s2.mCurrFrameResourceIndex = nextIndex s1 := stepFrame_some_currIndex h2
  have hfa : frIdx (nextIndex s) = frIdx (s.mCurrFrameResourceIndex + 1) := by
    apply frIdx_congr
    simp only [nextIndex, gNumFrameResources]
    omega
  have hfb : frIdx (nextIndex s1) = frIdx (s.mCurrFrameResourceIndex + 2) := by
    apply frIdx_congr
    simp only [nextIndex, idx1, gNumFrameResources]
    omega
  have hfc : frIdx (nextIndex s2) = frIdx (s.mCurrFrameResourceIndex + 3) := by
    apply frIdx_congr
    simp only [nextIndex, idx2, idx1, gNumFrameResources]
    omega
  have hne12 : frIdx (s.mCurrFrameResourceIndex + 1) ≠ frIdx (s.mCurrFrameResourceIndex + 2) :=
    frIdx_ne (by simp only [gNumFrameResources]; omega)
  have hne13 : frIdx (s.mCurrFrameResourceIndex + 1) ≠ frIdx (s.mCurrFrameResourceIndex + 3) :=
    frIdx_ne (by simp only [gNumFrameResources]; omega)
  have hne23 : frIdx (s.mCurrFrameResourceIndex + 2) ≠ frIdx (s.mCurrFrameResourceIndex + 3) :=
    frIdx_ne (by simp only [gNumFrameResources]; omega)
  have hd3 : e.NumFramesDirty = 3 := by
    rw [hd]
    simp [gNumFrameResources]
  have hd0 : 0 < e.NumFramesDirty := by omega
  have hdd1 : (decDirty e).NumFramesDirty = 2 := by
    rw [decDirty_numFramesDirty, if_pos hd0]
    omega
  have hd1 : 0 < (decDirty e).NumFramesDirty := by omega
  have hdd2 : (decDirty (decDirty e)).NumFramesDirty = 1 := by
    rw [decDirty_numFramesDirty, if_pos hd1]
    omega
  have hd2 : 0 < (decDirty (decDirty e)).NumFramesDirty := by omega
  have hmem1 : decDirty e ∈ s1.mAllRitems := by
    rw [stepFrame_some_allRitems h1]
    exact List.mem_map_of_mem decDirty hmem
  have hnd1 : (s1.mAllRitems.map RenderItem.ObjCBIndex).Nodup := by
    rw [stepFrame_some_allRitems h1, map_objCBIndex_decDirty]
    exact hnd
  have hmem2 : decDirty (decDirty e) ∈ s2.mAllRitems := by
    rw [stepFrame_some_allRitems h2]
    exact List.mem_map_of_mem decDirty hmem1
  have hnd2 : (s2.mAllRitems.map RenderItem.ObjCBIndex).Nodup := by
    rw [stepFrame_some_allRitems h2, map_objCBIndex_decDirty]
    exact hnd1
  have w1 : (s1.mFrameResources (frIdx (s.mCurrFrameResourceIndex + 1))).ObjectCB
      e.ObjCBIndex = some ⟨xmMatrixTranspose e.World⟩ := by
    rw [← hfa]
    exact stepFrame_some_objectCB_write h1 hnd e hmem hd0
  have w2 : (s2.mFrameResources (frIdx (s.mCurrFrameResourceIndex + 2))).ObjectCB
      e.ObjCBIndex = some ⟨xmMatrixTranspose e.World⟩ := by
    rw [← hfb]
    have h9 := stepFrame_some_objectCB_write h2 hnd1 (decDirty e) hmem1 hd1
    rw [decDirty_objCBIndex, decDirty_world] at h9
    exact h9
  have w3 : (s3x.mFrameResources (frIdx (s.mCurrFrameResourceIndex + 3))).ObjectCB
      e.ObjCBIndex = some ⟨xmMatrixTranspose e.World⟩ := by
    rw [← hfc]
    have h9 := stepFrame_some_objectCB_write h3 hnd2 (decDirty (decDirty e)) hmem2 hd2
    rw [decDirty_objCBIndex, decDirty_objCBIndex, decDirty_world, decDirty_world] at h9
    exact h9
  have r2a : (s2.mFrameResources (frIdx (s.mCurrFrameResourceIndex + 1))).ObjectCB =
      (s1.mFrameResources (frIdx (s.mCurrFrameResourceIndex + 1))).ObjectCB := by
    apply stepFrame_some_objectCB_other h2
    rw [hfb]
    exact hne12
  have r3a : (s3x.mFrameResources (frIdx (s.mCurrFrameResourceIndex + 1))).ObjectCB =
      (s2.mFrameResources (frIdx (s.mCurrFrameResourceIndex + 1))).ObjectCB := by
    apply stepFrame_some_objectCB_other h3
    rw [hfc]
    exact hne13
  have r3b : (s3x.mFrameResources (frIdx (s.mCurrFrameResourceIndex + 2))).ObjectCB =
      (s2.mFrameResources (frIdx (s.mCurrFrameResourceIndex + 2))).ObjectCB := by
    apply stepFrame_some_objectCB_other h3
    rw [hfc]
    exact hne23
  refine ⟨?_, ?_, ?_, ?_, ?_, ?_⟩
  · rw [hrunEq1]
    simp only [Option.map_some']
    exact congrArg some w1
  · intro j hj
    rw [hrunEq1]
    simp only [Option.map_some']
    apply congrArg some
    exact congrFun (stepFrame_some_objectCB_other h1 j (by rw [hfa]; exact hj)) e.ObjCBIndex
  · rw [hrunEq2]
    simp only [Option.map_some']
    exact congrArg some ((congrFun r2a e.ObjCBIndex).trans w1)
  · rw [hrunEq2]
    simp only [Option.map_some']
    exact congrArg some w2
  · intro j hj1 hj2
    rw [hrunEq2]
    simp only [Option.map_some']
    apply congrArg some
    have ha := congrFun (stepFrame_some_objectCB_other h2 j (by rw [hfb]; exact hj2))
      e.ObjCBIndex
    have hb := congrFun (stepFrame_some_objectCB_other h1 j (by rw [hfa]; exact hj1))
      e.ObjCBIndex
    exact ha.trans hb
  · intro j
    rw [hrun3]
    simp only [Option.map_some']
    apply congrArg some
    have hjv : j.val = (s.mCurrFrameResourceIndex + 1) % 3 ∨
        j.val = (s.mCurrFrameResourceIndex + 2) % 3 ∨
        j.val = (s.mCurrFrameResourceIndex + 3) % 3 := by
      have h9 := j.isLt
      simp only [gNumFrameResources] at h9
      omega
    rcases hjv with hv | hv | hv
    · have hj : j = frIdx (s.mCurrFrameResourceIndex + 1) := by
        apply Fin.ext
        rw [frIdx_val]
        simp only [gNumFrameResources]
        exact hv
      subst hj
      exact (congrFun r3a e.ObjCBIndex).trans ((congrFun r2a e.ObjCBIndex).trans w1)
    · have hj : j = frIdx (s.mCurrFrameResourceIndex + 2) := by
        apply Fin.ext
        rw [frIdx_val]
        simp only [gNumFrameResources]
        exact hv
      subst hj
      exact (congrFun r3b e.ObjCBIndex).trans w2
    · have hj : j = frIdx (s.mCurrFrameResourceIndex + 3) := by
        apply Fin.ext
        rw [frIdx_val]
        simp only [gNumFrameResources]
        exact hv
      subst hj
      exact w3

/-- C2: starting from any state in which object `e` carries a full
staleness counter (`gNumFrameResources`, as on creation or on a dirty
mark), three successive non-blocked frame advances propagate the
transposed world transform captured from `e` into every slot of the ring,
with no slot missed and no slot written twice, whatever the slot index
the change occurred in: step `k` writes exactly slot
`(current + k) % 3` (the other slots' entries are bit-identical to the
pre-run state until their own step), the three written slots are the
three distinct ring slots, and after the third advance every slot's copy
equals the captured value. -/
theorem claim_C2 (s : ShapesApp) (gt : GameTimer) (e : RenderItem) (c1 c2 c3 : Nat)
    (hnd : (s.mAllRitems.map RenderItem.ObjCBIndex).Nodup)
    (hmem : e ∈ s.mAllRitems)
    (hd : e.NumFramesDirty = (gNumFrameResources : Int))
    (hrun : (runFrames s gt [c1, c2, c3]).isSome = true) :
    ((runFrames s gt [c1]).map
        (fun t => (t.mFrameResources (frIdx (s.mCurrFrameResourceIndex + 1))).ObjectCB
          e.ObjCBIndex) = some (some ⟨xmMatrixTranspose e.World⟩)) ∧
    (∀ j : Fin gNumFrameResources, j ≠ frIdx (s.mCurrFrameResourceIndex + 1) →
      (runFrames s gt [c1]).map (fun t => (t.mFrameResources j).ObjectCB e.ObjCBIndex) =
        some ((s.mFrameResources j).ObjectCB e.ObjCBIndex)) ∧
    ((runFrames s gt [c1, c2]).map
        (fun t => (t.mFrameResources (frIdx (s.mCurrFrameResourceIndex + 1))).ObjectCB
          e.ObjCBIndex) = some (some ⟨xmMatrixTranspose e.World⟩)) ∧
    ((runFrames s gt [c1, c2]).map
        (fun t => (t.mFrameResources (frIdx (s.mCurrFrameResourceIndex + 2))).ObjectCB
          e.ObjCBIndex) = some (some ⟨xmMatrixTranspose e.World⟩)) ∧
    (∀ j : Fin gNumFrameResources, j ≠ frIdx (s.mCurrFrameResourceIndex + 1) →
      j ≠ frIdx (s.mCurrFrameResourceIndex + 2) →
      (runFrames s gt [c1, c2]).map
        (fun t => (t.mFrameResources j).ObjectCB e.ObjCBIndex) =
        some ((s.mFrameResources j).ObjectCB e.ObjCBIndex)) ∧
    (∀ j : Fin gNumFrameResources,
      (runFrames s gt [c1, c2, c3]).map
        (fun t => (t.mFrameResources j).ObjectCB e.ObjCBIndex) =
        some (some ⟨xmMatrixTranspose e.World⟩)) :=
  propagation3 s gt e c1 c2 c3 hnd hmem hd hrun

/-- C2 witness: the two-item demo scene, item `demoItemA` freshly dirty,
three frames at completed value 0; after the run all three slots hold its
transposed world matrix. -/
theorem claim_C2_witness :
    ((demoApp.mAllRitems.map RenderItem.ObjCBIndex).Nodup ∧
      demoItemA ∈ demoApp.mAllRitems ∧
      demoItemA.NumFramesDirty = (gNumFrameResources : Int) ∧
      (runFrames demoApp gtZero [0, 0, 0]).isSome = true) ∧
    ((runFrames demoApp gtZero [0, 0, 0]).map
        (fun t => (t.mFrameResources (frIdx 0)).ObjectCB demoItemA.ObjCBIndex) =
      some (some ⟨xmMatrixTranspose demoItemA.World⟩) ∧
    (runFrames demoApp gtZero [0, 0, 0]).map
        (fun t => (t.mFrameResources (frIdx 1)).ObjectCB demoItemA.ObjCBIndex) =
      some (some ⟨xmMatrixTranspose demoItemA.World⟩) ∧
    (runFrames demoApp gtZero [0, 0, 0]).map
        (fun t => (t.mFrameResources (frIdx 2)).ObjectCB demoItemA.ObjCBIndex) =
      some (some ⟨xmMatrixTranspose demoItemA.World⟩)) :=
  ⟨⟨by decide, List.mem_cons_self _ _, by decide, rfl⟩,
    (claim_C2 demoApp gtZero demoItemA 0 0 0 (by decide) (List.mem_cons_self _ _)
        (by decide) rfl).2.2.2.2.2 (frIdx 0),
    (claim_C2 demoApp gtZero demoItemA 0 0 0 (by decide) (List.mem_cons_self _ _)
        (by decide) rfl).2.2.2.2.2 (frIdx 1),
    (claim_C2 demoApp gtZero demoItemA 0 0 0 (by decide) (List.mem_cons_self _ _)
        (by decide) rfl).2.2.2.2.2 (frIdx 2)⟩

/-- C5: re-marking an object dirty resets its staleness counter to the
ring depth — not an increment — whatever the counter held (including
mid-propagation values), and after the mark three non-blocked advances
leave every slot's copy equal to the transposed final value, no slot
showing an intermediate value.  The marking operation itself is modelled
from the spec and the source comment at lines 40-44 (`markDirty`), since
the runtime mutation path is absent from the static scene. -/
theorem claim_C5 (s : ShapesApp) (gt : GameTimer) (e : RenderItem) (w : Mat4)
    (c1 c2 c3 : Nat)
    (hnd : (s.mAllRitems.map RenderItem.ObjCBIndex).Nodup)
    (hmem : e ∈ s.mAllRitems)
    (hrun : (runFrames (markDirtyAt s e.ObjCBIndex w) gt [c1, c2, c3]).isSome = true) :
    (markDirty e w).NumFramesDirty = (gNumFrameResources : Int) ∧
    ∀ j : Fin gNumFrameResources,
      (runFrames (markDirtyAt s e.ObjCBIndex w) gt [c1, c2, c3]).map
        (fun t => (t.mFrameResources j).ObjectCB e.ObjCBIndex) =
      some (some ⟨xmMatrixTranspose w⟩) := by
  constructor
  · rfl
  · have hnd' : ((markDirtyAt s e.ObjCBIndex w).mAllRitems.map
        RenderItem.ObjCBIndex).Nodup := by
      show ((s.mAllRitems.map
        fun x => if x.ObjCBIndex = e.ObjCBIndex then markDirty x w else x).map
          RenderItem.ObjCBIndex).Nodup
      rw [map_objCBIndex_markDirtyAt]
      exact hnd
    have hmem' : markDirty e w ∈ (markDirtyAt s e.ObjCBIndex w).mAllRitems := by
      show markDirty e w ∈ s.mAllRitems.map
        fun x => if x.ObjCBIndex = e.ObjCBIndex then markDirty x w else x
      have h9 : (fun x => if x.ObjCBIndex = e.ObjCBIndex then markDirty x w else x) e =
          markDirty e w := if_pos rfl
      rw [← h9]
      exact List.mem_map_of_mem _ hmem
    have h8 := (propagation3 (markDirtyAt s e.ObjCBIndex w) gt (markDirty e w)
      c1 c2 c3 hnd' hmem' rfl hrun).2.2.2.2.2
    intro j
    exact h8 j

/-- C5 witness: re-mark `demoItemB` (counter already at 0) with a new
transform in the two-item demo scene and run three frames at completed
value 0. -/
theorem claim_C5_witness :
    ((demoApp.mAllRitems.map RenderItem.ObjCBIndex).Nodup ∧
      demoItemB ∈ demoApp.mAllRitems ∧
      (runFrames (markDirtyAt demoApp demoItemB.ObjCBIndex (xmMatrixTranslation 4 5 6))
        gtZero [0, 0, 0]).isSome = true) ∧
    ((markDirty demoItemB (xmMatrixTranslation 4 5 6)).NumFramesDirty =
        (gNumFrameResources : Int) ∧
      (runFrames (markDirtyAt demoApp demoItemB.ObjCBIndex (xmMatrixTranslation 4 5 6))
          gtZero [0, 0, 0]).map
        (fun t => (t.mFrameResources (frIdx 0)).ObjectCB demoItemB.ObjCBIndex) =
      some (some ⟨xmMatrixTranspose (xmMatrixTranslation 4 5 6)⟩) ∧
      (runFrames (markDirtyAt demoApp demoItemB.ObjCBIndex (xmMatrixTranslation 4 5 6))
          gtZero [0, 0, 0]).map
        (fun t => (t.mFrameResources (frIdx 1)).ObjectCB demoItemB.ObjCBIndex) =
      some (some ⟨xmMatrixTranspose (xmMatrixTranslation 4 5 6)⟩) ∧
      (runFrames (markDirtyAt demoApp demoItemB.ObjCBIndex (xmMatrixTranslation 4 5 6))
          gtZero [0, 0, 0]).map
        (fun t => (t.mFrameResources (frIdx 2)).ObjectCB demoItemB.ObjCBIndex) =
      some (some ⟨xmMatrixTranspose (xmMatrixTranslation 4 5 6)⟩)) :=
  ⟨⟨by decide, List.mem_cons_of_mem _ (List.mem_cons_self _ _), rfl⟩,
    (claim_C5 demoApp gtZero demoItemB (xmMatrixTranslation 4 5 6) 0 0 0 (by decide)
        (List.mem_cons_of_mem _ (List.mem_cons_self _ _)) rfl).1,
    (claim_C5 demoApp gtZero demoItemB (xmMatrixTranslation 4 5 6) 0 0 0 (by decide)
        (List.mem_cons_of_mem _ (List.mem_cons_self _ _)) rfl).2 (frIdx 0),
    (claim_C5 demoApp gtZero demoItemB (xmMatrixTranslation 4 5 6) 0 0 0 (by decide)
        (List.mem_cons_of_mem _ (List.mem_cons_self _ _)) rfl).2 (frIdx 1),
    (claim_C5 demoApp gtZero demoItemB (xmMatrixTranslation 4 5 6) 0 0 0 (by decide)
        (List.mem_cons_of_mem _ (List.mem_cons_self _ _)) rfl).2 (frIdx 2)⟩

/-- C6 (as amended): the ring's wait at slot selection bounds how far the
CPU runs ahead of the GPU, but the tight formulation is: at the moment a
frame's slot wait completes (before that frame's submission) at most
`gNumFrameResources - 1` submitted frames' targets exceed the observed
completed value, and immediately after that frame's submission at most
`gNumFrameResources` do.  The pending count right after a submission can
reach `gNumFrameResources`, so the claimed all-points bound of
`gNumFrameResources - 1` does not hold (see the counterexample). -/
theorem claim_C6 (sched : List Nat) (gt gt' : GameTimer) (c : Nat) (s' : ShapesApp)
    (hrun : runFrames initialApp gt sched = some s')
    (hstep : (stepFrame s' c gt').isSome = true) :
    pendingSubmissions s' c ≤ gNumFrameResources - 1 ∧
    (stepFrame s' c gt').map (fun t => pendingSubmissions t c) =
      some (s'.mCurrentFence + 1 - c) ∧
    s'.mCurrentFence + 1 - c ≤ gNumFrameResources := by
  have hI := ringInv_runFrames ringInv_initialApp hrun
  have hnf := ringInv_nextFence hI
  have hle := (stepFrame_isSome_iff s' c gt').1 hstep
  rw [hnf] at hle
  have hbound : s'.mCurrentFence ≤ c + 2 := by
    by_cases h3 : 3 ≤ s'.mCurrentFence
    · rw [if_pos h3] at hle
      omega
    · omega
  refine ⟨?_, ?_, ?_⟩
  · rw [pendingSubmissions_eq]
    simp only [gNumFrameResources]
    omega
  · obtain ⟨t, ht⟩ := Option.isSome_iff_exists.1 hstep
    rw [ht]
    simp only [Option.map_some']
    apply congrArg some
    rw [pendingSubmissions_eq, stepFrame_some_currentFence ht]
  · simp only [gNumFrameResources]
    omega

/-- C6 witness: the empty prefix (the initial state) and completed value
0; the first frame proceeds and leaves exactly one frame pending. -/
theorem claim_C6_witness :
    (runFrames initialApp gtZero [] = some initialApp ∧
      (stepFrame initialApp 0 gtZero).isSome = true) ∧
    (pendingSubmissions initialApp 0 ≤ gNumFrameResources - 1 ∧
      (stepFrame initialApp 0 gtZero).map (fun t => pendingSubmissions t 0) =
        some (initialApp.mCurrentFence + 1 - 0) ∧
      initialApp.mCurrentFence + 1 - 0 ≤ gNumFrameResources) :=
  ⟨⟨rfl, rfl⟩, claim_C6 [] gtZero gtZero 0 initialApp rfl rfl⟩

/-- C6 counterexample: run the program's first three frames with the GPU
never signalling (completed value 0 at every wait — legal, because all
three initial fence targets are 0 and the wait is skipped).  Immediately
after the third submission, the targets 1, 2 and 3 are all pending, so 3
submitted frames exceed the completed value while the claim as stated
allows at most `gNumFrameResources - 1 = 2` at every point of
execution. -/
theorem claim_C6_counterexample :
    (runFrames initialApp gtZero [0, 0, 0]).map (fun t => pendingSubmissions t 0) =
      some 3 ∧
    ¬(3 ≤ gNumFrameResources - 1) :=
  ⟨rfl, by decide⟩
